import Mathlib

set_option autoImplicit false

namespace Misra

/-- Token kinds, from the TokenType enum in src/main.py. -/
inductive TokenType where
  | PING
  | PONG
  deriving DecidableEq

/-- Node states, from the NodeState enum in src/main.py. -/
inductive NodeState where
  | NO_TOKEN
  | TOKEN_PING
  | TOKEN_PONG
  | BOTH_TOKENS
  deriving DecidableEq

/-- A circulating token, from the Token class: a kind and a signed generation value.
The constructor kind-check (RuntimeError on a non-TokenType) is enforced by typing. -/
structure Token where
  type : TokenType
  value : Int
  deriving DecidableEq

/-- The mutable per-node fields of the Node class (src/main.py lines 116-124):
held tokens, rank, successor rank, the marker m, and the state enum. -/
structure Node where
  token_ping : Option Token
  token_pong : Option Token
  rank : Nat
  next_node : Nat
  m : Int
  state : NodeState
  deriving DecidableEq

/-- Diagnostics emitted by become, mirroring its log calls: the two
regeneration warnings, the stale-token discard message, and the double-hold
critical anomaly message. -/
inductive Diag where
  | pongTokenLost
  | pingTokenLost
  | staleDiscard
  | doubleHoldAnomaly
  deriving DecidableEq

/-- An outgoing message: a token addressed to a destination rank. -/
structure Sent where
  token : Token
  dest : Nat
  deriving DecidableEq

/-- From Node.regenerate_token (src/main.py lines 239-240). -/
def regenerate_token (token_type : TokenType) (value : Int) : Token :=
  ⟨token_type, value⟩

/-- From Node.incarnate_tokens (src/main.py lines 234-237): a fresh pair,
PING carrying abs(x+1) and PONG carrying -abs(x+1). -/
def incarnate_tokens (x : Int) : Token × Token :=
  (⟨TokenType.PING, ((x + 1).natAbs : Int)⟩,
   ⟨TokenType.PONG, -((x + 1).natAbs : Int)⟩)

/-- The slot-update and state-transition block of Node.become
(src/main.py lines 214-232), reached unless the stale branch returned early:
store the incoming token into its kind's slot and advance the state enum;
a kind already held (or BOTH_TOKENS) only logs the critical anomaly. -/
def slotUpdate (n : Node) (token : Token) (d : List Diag) : Node × List Diag :=
  match token.type with
  | TokenType.PING =>
    let n2 := { n with token_ping := some token }
    match n.state with
    | NodeState.NO_TOKEN => ({ n2 with state := NodeState.TOKEN_PING }, d)
    | NodeState.TOKEN_PONG => ({ n2 with state := NodeState.BOTH_TOKENS }, d)
    | _ => (n2, d ++ [Diag.doubleHoldAnomaly])
  | TokenType.PONG =>
    let n2 := { n with token_pong := some token }
    match n.state with
    | NodeState.NO_TOKEN => ({ n2 with state := NodeState.TOKEN_PONG }, d)
    | NodeState.TOKEN_PING => ({ n2 with state := NodeState.BOTH_TOKENS }, d)
    | _ => (n2, d ++ [Diag.doubleHoldAnomaly])

/-- The transition function Node.become (src/main.py lines 197-232), with its
log calls reflected as returned diagnostics. If the value equals the marker m,
the companion chosen by the sign of m is regenerated with seed -value and the
state is set to hold it; else a strictly smaller magnitude is discarded with
no state change; otherwise (and after the regeneration branch) the slot-update
block runs. Python's abs-comparison on ints is Int.natAbs comparison. -/
def become (n : Node) (token : Token) : Node × List Diag :=
  if token.value = n.m then
    if 0 < n.m then
      slotUpdate { n with
          token_pong := some (regenerate_token TokenType.PONG (-token.value)),
          state := NodeState.TOKEN_PONG } token [Diag.pongTokenLost]
    else
      slotUpdate { n with
          token_ping := some (regenerate_token TokenType.PING (-token.value)),
          state := NodeState.TOKEN_PING } token [Diag.pingTokenLost]
  else if token.value.natAbs < n.m.natAbs then
    (n, [Diag.staleDiscard])
  else
    slotUpdate n token []

/-- From Node.send_token_ping (src/main.py lines 158-169): set m to the held
PING's value, send it unless the loss draw drops it, clear the slot, fall back
to NO_TOKEN from TOKEN_PING else to TOKEN_PONG. The loss draw
random.random() < LOST_PING_PROBABILITY is passed in as the boolean lost.
Returns none when no PING is held (the Python would fail on None.value). -/
def send_token_ping (n : Node) (lost : Bool) : Option (Node × List Sent) :=
  match n.token_ping with
  | none => none
  | some t =>
    some ({ n with m := t.value,
                   token_ping := none,
                   state := if n.state = NodeState.TOKEN_PING then NodeState.NO_TOKEN
                            else NodeState.TOKEN_PONG },
          if lost then [] else [⟨t, n.next_node⟩])

/-- From Node.send_token_pong (src/main.py lines 171-182): the PONG analogue,
with its own loss draw against LOST_PONG_PROBABILITY passed in as lost. -/
def send_token_pong (n : Node) (lost : Bool) : Option (Node × List Sent) :=
  match n.token_pong with
  | none => none
  | some t =>
    some ({ n with m := t.value,
                   token_pong := none,
                   state := if n.state = NodeState.TOKEN_PONG then NodeState.NO_TOKEN
                            else NodeState.TOKEN_PING },
          if lost then [] else [⟨t, n.next_node⟩])

/-- The drain of already-buffered envelopes, from Node.ilisten
(src/main.py lines 189-195): apply become to each buffered token in order. -/
def drainBecome (n : Node) (buffered : List Token) : Node :=
  buffered.foldl (fun acc t => (become acc t).1) n

/-- One iteration of the main loop in state TOKEN_PING (Node.run lines
139-146): after the critical-section delay, drain buffered envelopes if any
(the loop then re-dispatches without sending this iteration), else forward
the held PING. -/
def runStepPing (n : Node) (buffered : List Token) (lost : Bool) :
    Option (Node × List Sent) :=
  if buffered.isEmpty then send_token_ping n lost
  else some (drainBecome n buffered, [])

/-- One iteration of the main loop in state TOKEN_PONG (Node.run lines
148-149): forward immediately; unlike the TOKEN_PING branch there is no
drain of buffered envelopes, so the buffer argument is ignored. -/
def runStepPong (n : Node) (buffered : List Token) (lost : Bool) :
    Option (Node × List Sent) :=
  send_token_pong n lost

/-- Modelled from the spec: the TOKEN_PONG loop handling as the claim states
it, fully symmetric to the TOKEN_PING handling, which would drain
already-buffered envelopes via non-blocking probe before forwarding. The code
(Node.run lines 148-149) has no such drain; this definition follows the
claim's words so the two can be compared. -/
def runStepPongClaimed (n : Node) (buffered : List Token) (lost : Bool) :
    Option (Node × List Sent) :=
  if buffered.isEmpty then send_token_pong n lost
  else some (drainBecome n buffered, [])

/-- Swap the two single-hold states, fixing NO_TOKEN and BOTH_TOKENS. -/
def mirrorState : NodeState → NodeState
  | NodeState.NO_TOKEN => NodeState.NO_TOKEN
  | NodeState.TOKEN_PING => NodeState.TOKEN_PONG
  | NodeState.TOKEN_PONG => NodeState.TOKEN_PING
  | NodeState.BOTH_TOKENS => NodeState.BOTH_TOKENS

/-- Swap the PING and PONG roles of a node: exchange the held slots and
mirror the state enum; rank, successor and marker are unchanged. -/
def mirrorNode (n : Node) : Node :=
  { n with token_ping := n.token_pong,
           token_pong := n.token_ping,
           state := mirrorState n.state }

/-- From Node.__init__ (src/main.py lines 116-124): empty slots, successor
rank (rank+1) mod size, marker 0, state NO_TOKEN. -/
def initNode (rank size : Nat) : Node :=
  { token_ping := none, token_pong := none, rank := rank,
    next_node := (rank + 1) % size, m := 0, state := NodeState.NO_TOKEN }

/-- The bootstrap block at the top of Node.run (src/main.py lines 126-131):
rank 0 sends PING(1) then PONG(-1) to its successor before the loop; every
other rank sends nothing. The sends do not modify the node's fields. -/
def seed (n : Node) : Node × List Sent :=
  if n.rank = 0 then
    (n, [⟨⟨TokenType.PING, 1⟩, n.next_node⟩, ⟨⟨TokenType.PONG, -1⟩, n.next_node⟩])
  else (n, [])

/-- The kind opposite to a given token kind. -/
def opposite : TokenType → TokenType
  | TokenType.PING => TokenType.PONG
  | TokenType.PONG => TokenType.PING

/-- The held slot matching a token kind. -/
def heldSlot (n : Node) : TokenType → Option Token
  | TokenType.PING => n.token_ping
  | TokenType.PONG => n.token_pong

/-- A node's state enum records holding the given kind: the matching
single-hold state or BOTH_TOKENS. -/
def holdsKind (n : Node) : TokenType → Prop
  | TokenType.PING => n.state = NodeState.TOKEN_PING ∨ n.state = NodeState.BOTH_TOKENS
  | TokenType.PONG => n.state = NodeState.TOKEN_PONG ∨ n.state = NodeState.BOTH_TOKENS

/-- C2: for every integer x with which incarnate_tokens is called at
convergence (the held PING's value, positive by the sign convention), the
magnitude of the freshly produced pair strictly exceeds the magnitude of x. -/
theorem incarnate_magnitude_exceeds (x : Int) (hx : 0 < x) :
    x.natAbs < ((incarnate_tokens x).1.value).natAbs := by
  simp only [incarnate_tokens]
  omega

/-- Witness for incarnate_magnitude_exceeds at x = 5. -/
theorem incarnate_magnitude_exceeds_witness :
    (0 : Int) < 5 ∧ (5 : Int).natAbs < ((incarnate_tokens 5).1.value).natAbs :=
  ⟨by decide, incarnate_magnitude_exceeds 5 (by decide)⟩

/-- C3: incarnate_tokens x returns exactly one PING token with value abs (x+1)
and one PONG token with value -abs (x+1); in particular incarnate_tokens 5
produces exactly the pair PING 6 and PONG (-6). -/
theorem incarnate_pair (x : Int) :
    (incarnate_tokens x).1 = ⟨TokenType.PING, |x + 1|⟩ ∧
    (incarnate_tokens x).2 = ⟨TokenType.PONG, -|x + 1|⟩ ∧
    incarnate_tokens 5 = (⟨TokenType.PING, 6⟩, ⟨TokenType.PONG, -6⟩) := by
  have habs : ((x + 1).natAbs : Int) = |x + 1| := (Int.abs_eq_natAbs (x + 1)).symm
  exact ⟨by rw [incarnate_tokens, habs], by rw [incarnate_tokens, habs], by decide⟩

/-- C1: when become receives a token whose value equals the marker m, under
the sign convention (PING carries a positive value, PONG a negative one) the
companion of the opposite kind is regenerated with seed -value, stored in the
companion's held slot, and the node ends in a state holding that companion;
the regenerated magnitude is exactly the magnitude of m. -/
theorem become_duplicate_regenerates (n : Node) (t : Token)
    (hdup : t.value = n.m)
    (hping : t.type = TokenType.PING → 0 < t.value)
    (hpong : t.type = TokenType.PONG → t.value < 0) :
    heldSlot (become n t).1 (opposite t.type)
        = some (regenerate_token (opposite t.type) (-t.value)) ∧
    holdsKind (become n t).1 (opposite t.type) ∧
    (-t.value).natAbs = n.m.natAbs := by
  obtain ⟨ty, v⟩ := t
  cases ty with
  | PING =>
    have hv : 0 < v := hping rfl
    have hm : 0 < n.m := hdup ▸ hv
    simp only [become] at *
    rw [if_pos hdup, if_pos hm]
    simp [slotUpdate, heldSlot, opposite, holdsKind, regenerate_token]
    omega
  | PONG =>
    have hv : v < 0 := hpong rfl
    have hdup2 : v = n.m := hdup
    have hm : ¬ 0 < n.m := by omega
    simp only [become] at *
    rw [if_pos hdup, if_neg hm]
    simp [slotUpdate, heldSlot, opposite, holdsKind, regenerate_token]
    omega

/-- Witness for become_duplicate_regenerates: a node with marker 5 receiving
PING 5 regenerates and holds PONG (-5). -/
theorem become_duplicate_regenerates_witness :
    (Token.mk TokenType.PING 5).value
        = (Node.mk none none 0 1 5 NodeState.NO_TOKEN).m ∧
    heldSlot (become (Node.mk none none 0 1 5 NodeState.NO_TOKEN)
          (Token.mk TokenType.PING 5)).1 (opposite TokenType.PING)
        = some (regenerate_token (opposite TokenType.PING) (-5)) ∧
    holdsKind (become (Node.mk none none 0 1 5 NodeState.NO_TOKEN)
          (Token.mk TokenType.PING 5)).1 (opposite TokenType.PING) ∧
    ((-5 : Int)).natAbs = ((5 : Int)).natAbs :=
  ⟨by decide,
   become_duplicate_regenerates (Node.mk none none 0 1 5 NodeState.NO_TOKEN)
     (Token.mk TokenType.PING 5) (by decide) (fun _ => by decide)
     (fun h => by cases h)⟩

/-- C5: an incoming token whose value differs from the marker and whose
magnitude is strictly smaller is discarded: become returns the node entirely
unchanged, with only the stale-discard diagnostic. -/
theorem become_stale_discard (n : Node) (t : Token)
    (hne : t.value ≠ n.m) (hlt : |t.value| < |n.m|) :
    become n t = (n, [Diag.staleDiscard]) := by
  have hlt2 : t.value.natAbs < n.m.natAbs := by
    rw [Int.abs_eq_natAbs, Int.abs_eq_natAbs] at hlt
    exact_mod_cast hlt
  rw [become, if_neg hne, if_pos hlt2]

/-- Witness for become_stale_discard: a node with marker 3 receiving PING 2
discards it unchanged. -/
theorem become_stale_discard_witness :
    (Token.mk TokenType.PING 2).value
        ≠ (Node.mk none none 0 1 3 NodeState.NO_TOKEN).m ∧
    |(Token.mk TokenType.PING 2).value|
        < |(Node.mk none none 0 1 3 NodeState.NO_TOKEN).m| ∧
    become (Node.mk none none 0 1 3 NodeState.NO_TOKEN) (Token.mk TokenType.PING 2)
        = (Node.mk none none 0 1 3 NodeState.NO_TOKEN, [Diag.staleDiscard]) :=
  ⟨by decide, by decide,
   become_stale_discard (Node.mk none none 0 1 3 NodeState.NO_TOKEN)
     (Token.mk TokenType.PING 2) (by decide) (by decide)⟩

/-- C6: an idle node with positive marker m receiving a PING of value m ends
the become call in BOTH_TOKENS, with the regenerated PONG (-m) in the pong
slot and the incoming token in the ping slot; symmetrically for negative m
and an incoming PONG of value m. -/
theorem become_idle_duplicate_ends_both (n : Node) (t : Token)
    (hidle : n.state = NodeState.NO_TOKEN) (hdup : t.value = n.m) :
    (0 < n.m → t.type = TokenType.PING →
      (become n t).1.state = NodeState.BOTH_TOKENS ∧
      (become n t).1.token_pong = some ⟨TokenType.PONG, -n.m⟩ ∧
      (become n t).1.token_ping = some t) ∧
    (n.m < 0 → t.type = TokenType.PONG →
      (become n t).1.state = NodeState.BOTH_TOKENS ∧
      (become n t).1.token_ping = some ⟨TokenType.PING, -n.m⟩ ∧
      (become n t).1.token_pong = some t) := by
  obtain ⟨ty, v⟩ := t
  constructor
  · intro hm hty
    subst hty
    simp only [become]
    rw [if_pos hdup, if_pos hm]
    simp only [Token.value] at hdup
    subst hdup
    simp [slotUpdate, regenerate_token]
  · intro hm hty
    subst hty
    have hm2 : ¬ 0 < n.m := by omega
    simp only [become]
    rw [if_pos hdup, if_neg hm2]
    simp only [Token.value] at hdup
    subst hdup
    simp [slotUpdate, regenerate_token]

/-- Witness for become_idle_duplicate_ends_both: an idle node with marker 5
receiving PING 5 ends in BOTH_TOKENS holding PONG (-5) and the incoming PING. -/
theorem become_idle_duplicate_ends_both_witness :
    (Node.mk none none 0 1 5 NodeState.NO_TOKEN).state = NodeState.NO_TOKEN ∧
    (Token.mk TokenType.PING 5).value
        = (Node.mk none none 0 1 5 NodeState.NO_TOKEN).m ∧
    ((0 < (Node.mk none none 0 1 5 NodeState.NO_TOKEN).m →
        (Token.mk TokenType.PING 5).type = TokenType.PING →
        (become (Node.mk none none 0 1 5 NodeState.NO_TOKEN)
            (Token.mk TokenType.PING 5)).1.state = NodeState.BOTH_TOKENS ∧
        (become (Node.mk none none 0 1 5 NodeState.NO_TOKEN)
            (Token.mk TokenType.PING 5)).1.token_pong
          = some ⟨TokenType.PONG, -(Node.mk none none 0 1 5 NodeState.NO_TOKEN).m⟩ ∧
        (become (Node.mk none none 0 1 5 NodeState.NO_TOKEN)
            (Token.mk TokenType.PING 5)).1.token_ping
          = some (Token.mk TokenType.PING 5)) ∧
      ((Node.mk none none 0 1 5 NodeState.NO_TOKEN).m < 0 →
        (Token.mk TokenType.PING 5).type = TokenType.PONG →
        (become (Node.mk none none 0 1 5 NodeState.NO_TOKEN)
            (Token.mk TokenType.PING 5)).1.state = NodeState.BOTH_TOKENS ∧
        (become (Node.mk none none 0 1 5 NodeState.NO_TOKEN)
            (Token.mk TokenType.PING 5)).1.token_ping
          = some ⟨TokenType.PING, -(Node.mk none none 0 1 5 NodeState.NO_TOKEN).m⟩ ∧
        (become (Node.mk none none 0 1 5 NodeState.NO_TOKEN)
            (Token.mk TokenType.PING 5)).1.token_pong
          = some (Token.mk TokenType.PING 5))) :=
  ⟨rfl, by decide,
   become_idle_duplicate_ends_both (Node.mk none none 0 1 5 NodeState.NO_TOKEN)
     (Token.mk TokenType.PING 5) rfl (by decide)⟩

/-- C4 counterexample: a node whose marker already equals the token's value,
receiving that value a second time, does not take the discard path: the
stale-discard diagnostic is absent (the duplicate branch emits the
regeneration warning instead). -/
theorem become_second_delivery_not_discard :
    Diag.staleDiscard ∉
      (become (become (Node.mk (some (Token.mk TokenType.PING 1))
              (some (Token.mk TokenType.PONG (-1))) 0 1 1 NodeState.BOTH_TOKENS)
            (Token.mk TokenType.PING 1)).1
          (Token.mk TokenType.PING 1)).2 := by
  decide

/-- C4 amended: delivering the same token value twice to a node whose marker
already equals that value does not alter the node on the second delivery (the
whole record, marker included, is unchanged), but via the duplicate/
regeneration branch, which is idempotent there, not via the discard branch. -/
theorem become_duplicate_idempotent (n : Node) (t : Token)
    (hdup : t.value = n.m) :
    (become (become n t).1 t).1 = (become n t).1 ∧ (become n t).1.m = n.m := by
  obtain ⟨ty, v⟩ := t
  have hdup2 : v = n.m := hdup
  subst hdup2
  by_cases hm : 0 < n.m
  · cases ty <;> simp [become, slotUpdate, regenerate_token, hm]
  · cases ty <;> simp [become, slotUpdate, regenerate_token, hm]

/-- Witness for become_duplicate_idempotent at a concrete node with marker 1
receiving PING 1 twice. -/
theorem become_duplicate_idempotent_witness :
    (Token.mk TokenType.PING 1).value
        = (Node.mk none none 0 1 1 NodeState.NO_TOKEN).m ∧
    ((become (become (Node.mk none none 0 1 1 NodeState.NO_TOKEN)
            (Token.mk TokenType.PING 1)).1
          (Token.mk TokenType.PING 1)).1
        = (become (Node.mk none none 0 1 1 NodeState.NO_TOKEN)
            (Token.mk TokenType.PING 1)).1 ∧
      (become (Node.mk none none 0 1 1 NodeState.NO_TOKEN)
          (Token.mk TokenType.PING 1)).1.m
        = (Node.mk none none 0 1 1 NodeState.NO_TOKEN).m) :=
  ⟨by decide,
   become_duplicate_idempotent (Node.mk none none 0 1 1 NodeState.NO_TOKEN)
     (Token.mk TokenType.PING 1) (by decide)⟩

/-- C7 counterexample: with a buffered envelope present, the TOKEN_PONG loop
branch of the code differs from the claimed drain-then-forward handling that
would be symmetric to the TOKEN_PING branch: the code forwards the PONG
anyway and never consumes the buffered envelope. -/
theorem run_step_pong_not_fully_symmetric :
    runStepPong (Node.mk none (some (Token.mk TokenType.PONG (-1)))
        1 2 1 NodeState.TOKEN_PONG)
        [Token.mk TokenType.PING 2] false
      ≠ runStepPongClaimed (Node.mk none (some (Token.mk TokenType.PONG (-1)))
        1 2 1 NodeState.TOKEN_PONG)
        [Token.mk TokenType.PING 2] false := by
  decide

/-- C7 amended: the TOKEN_PONG loop handling is exactly the mirror image of
the TOKEN_PING forwarding step (its own marker update to the held PONG's
value, its own independent loss decision, clearing of the pong slot, and
fallback to TOKEN_PING if a PING is concurrently held, else NO_TOKEN), but it
performs no drain of buffered envelopes before forwarding: the buffer
argument is ignored. -/
theorem run_step_pong_mirrors_send_ping (n : Node) (buffered : List Token)
    (lost : Bool) :
    runStepPong n buffered lost
      = (send_token_ping (mirrorNode n) lost).map
          (fun r => (mirrorNode r.1, r.2)) := by
  cases htp : n.token_pong <;>
    cases hst : n.state <;>
      simp [runStepPong, send_token_pong, send_token_ping, mirrorNode,
            mirrorState, htp, hst]

/-- C8 counterexample: immediately after the seeding sends, the initiator's
marker is still 0, not -1: the bootstrap sends never assign the marker. -/
theorem seed_initiator_marker_not_neg_one :
    (seed (initNode 0 4)).1.m ≠ -1 := by
  decide

/-- C8 amended: every node's marker is initialized to 0, and at every node
(the initiator included) it still equals 0 immediately after the seeding
block, since the seeding sends do not modify the marker. -/
theorem marker_init_zero_seed_preserves (rank size : Nat) :
    (initNode rank size).m = 0 ∧ (seed (initNode rank size)).1.m = 0 := by
  refine ⟨rfl, ?_⟩
  unfold seed
  split <;> rfl

/-- C9: rank 0 alone is the initiator: before its loop it sends exactly a
PING of value 1 followed by a PONG of value -1, both to its successor
(0+1) mod N, while any nonzero rank sends nothing before its loop. -/
theorem initiator_seeds_only (size rank : Nat) (hr : rank ≠ 0) :
    (seed (initNode 0 size)).2
        = [⟨⟨TokenType.PING, 1⟩, 1 % size⟩, ⟨⟨TokenType.PONG, -1⟩, 1 % size⟩] ∧
    (seed (initNode rank size)).2 = [] := by
  constructor
  · simp [seed, initNode]
  · simp [seed, initNode, hr]

/-- Witness for initiator_seeds_only with ring size 4 and non-initiator
rank 2. -/
theorem initiator_seeds_only_witness :
    (2 : Nat) ≠ 0 ∧
    ((seed (initNode 0 4)).2
        = [⟨⟨TokenType.PING, 1⟩, 1 % 4⟩, ⟨⟨TokenType.PONG, -1⟩, 1 % 4⟩] ∧
      (seed (initNode 2 4)).2 = []) :=
  ⟨by decide, initiator_seeds_only 4 2 (by decide)⟩

/-- C10: when become receives a token of a kind the node already holds (its
state is the matching single-hold state or BOTH_TOKENS) and neither the
duplicate branch nor the stale branch fires, the call is total (no
exception), leaves the state enum and the marker unchanged, silently
overwrites the held slot of that kind with the arrived token, leaves the
other slot untouched, and emits only the critical-anomaly diagnostic. -/
theorem become_double_hold_overwrites (n : Node) (t : Token)
    (hne : t.value ≠ n.m) (hge : ¬ t.value.natAbs < n.m.natAbs)
    (hheld : n.state = NodeState.BOTH_TOKENS ∨
             (t.type = TokenType.PING ∧ n.state = NodeState.TOKEN_PING) ∨
             (t.type = TokenType.PONG ∧ n.state = NodeState.TOKEN_PONG)) :
    (become n t).1.state = n.state ∧
    heldSlot (become n t).1 t.type = some t ∧
    heldSlot (become n t).1 (opposite t.type) = heldSlot n (opposite t.type) ∧
    (become n t).1.m = n.m ∧
    (become n t).2 = [Diag.doubleHoldAnomaly] := by
  obtain ⟨ty, v⟩ := t
  rcases hheld with h | ⟨hty, h⟩ | ⟨hty, h⟩
  · cases ty <;>
      simp [become, slotUpdate, heldSlot, opposite, hne, hge, h]
  · subst hty
    simp [become, slotUpdate, heldSlot, opposite, hne, hge, h]
  · subst hty
    simp [become, slotUpdate, heldSlot, opposite, hne, hge, h]

/-- Witness for become_double_hold_overwrites: a node in TOKEN_PING holding
PING 2 with marker 1 receiving PING 3. -/
theorem become_double_hold_overwrites_witness :
    (Token.mk TokenType.PING 3).value
        ≠ (Node.mk (some (Token.mk TokenType.PING 2)) none 0 1 1
            NodeState.TOKEN_PING).m ∧
    ¬ (Token.mk TokenType.PING 3).value.natAbs
        < (Node.mk (some (Token.mk TokenType.PING 2)) none 0 1 1
            NodeState.TOKEN_PING).m.natAbs ∧
    ((become (Node.mk (some (Token.mk TokenType.PING 2)) none 0 1 1
          NodeState.TOKEN_PING) (Token.mk TokenType.PING 3)).1.state
        = (Node.mk (some (Token.mk TokenType.PING 2)) none 0 1 1
            NodeState.TOKEN_PING).state ∧
      heldSlot (become (Node.mk (some (Token.mk TokenType.PING 2)) none 0 1 1
          NodeState.TOKEN_PING) (Token.mk TokenType.PING 3)).1
          (Token.mk TokenType.PING 3).type
        = some (Token.mk TokenType.PING 3) ∧
      heldSlot (become (Node.mk (some (Token.mk TokenType.PING 2)) none 0 1 1
          NodeState.TOKEN_PING) (Token.mk TokenType.PING 3)).1
          (opposite (Token.mk TokenType.PING 3).type)
        = heldSlot (Node.mk (some (Token.mk TokenType.PING 2)) none 0 1 1
            NodeState.TOKEN_PING) (opposite (Token.mk TokenType.PING 3).type) ∧
      (become (Node.mk (some (Token.mk TokenType.PING 2)) none 0 1 1
          NodeState.TOKEN_PING) (Token.mk TokenType.PING 3)).1.m
        = (Node.mk (some (Token.mk TokenType.PING 2)) none 0 1 1
            NodeState.TOKEN_PING).m ∧
      (become (Node.mk (some (Token.mk TokenType.PING 2)) none 0 1 1
          NodeState.TOKEN_PING) (Token.mk TokenType.PING 3)).2
        = [Diag.doubleHoldAnomaly]) :=
  ⟨by decide, by decide,
   become_double_hold_overwrites
     (Node.mk (some (Token.mk TokenType.PING 2)) none 0 1 1 NodeState.TOKEN_PING)
     (Token.mk TokenType.PING 3) (by decide) (by decide)
     (Or.inr (Or.inl ⟨rfl, rfl⟩))⟩

end Misra
